import Mathlib

/-!
A shallow embedding of the request-lifecycle and response-mapping core of a
client-side HTTP pipeline: the topic bus (`Events` of
`providers/backend/events.ts`), the XHR completion handlers of
`XHRConnection` (`providers/backend/xhr_backend.ts`, status normalization
`normalizeLoad` and the load and error handlers `onLoadRun` and `onErrorRun`),
the plugin dispatch loop of `Http.runEvent` (`runDispatch`), the mapping
engine (`ModelCollection`, `ModelSimple`, `ModelMultiple`) and the tail of
`Http.request`.  JavaScript runtime values are embedded as `JSVal`;
function objects are identified by numeric ids wherever object identity
matters, with an interpretation map supplying their behaviour.
-/

/-- JavaScript runtime values, as far as the embedded code inspects them. -/
inductive JSVal : Type where
  | undef : JSVal
  | null : JSVal
  | bool : Bool → JSVal
  | num : Int → JSVal
  | str : String → JSVal
  | arr : List JSVal → JSVal
  | obj : List (String × JSVal) → JSVal
  | fn : Nat → JSVal

/-- The result of the JavaScript typeof operator (typeof null is "object"). -/
def jsTypeof : JSVal → String
  | .undef => "undefined"
  | .null => "object"
  | .bool _ => "boolean"
  | .num _ => "number"
  | .str _ => "string"
  | .arr _ => "object"
  | .obj _ => "object"
  | .fn _ => "function"

/-- JavaScript truthiness of a value. -/
def jsTruthy : JSVal → Bool
  | .undef => false
  | .null => false
  | .bool b => b
  | .num n => n != 0
  | .str s => s != ""
  | .arr _ => true
  | .obj _ => true
  | .fn _ => true

/-- Strict equality test against the literal false (the `stop === false` test
of `Http.runEvent`): only the boolean false passes. -/
def isLiteralFalse : JSVal → Bool
  | .bool false => true
  | _ => false

/-- Strict equality test against null (`=== null`): only null passes, not
undefined. -/
def isNullVal : JSVal → Bool
  | .null => true
  | _ => false

/-- Lookup of a string-keyed property of a plain object, `undefined` (none)
when absent. -/
def alookup {β : Type} : List (String × β) → String → Option β
  | [], _ => none
  | (k, v) :: rest, key => if k = key then some v else alookup rest key

/-- Property assignment on a plain object. -/
def aset {β : Type} : List (String × β) → String → β → List (String × β)
  | [], key, v => [(key, v)]
  | (k0, v0) :: rest, key, v =>
    if k0 = key then (k0, v) :: rest else (k0, v0) :: aset rest key v

/-- Property deletion on a plain object (the `delete` operator). -/
def aremove {β : Type} : List (String × β) → String → List (String × β)
  | [], _ => []
  | (k0, v0) :: rest, key =>
    if k0 = key then aremove rest key else (k0, v0) :: aremove rest key

/-- The topic-to-handler-list store of `Events` (`events.ts` line 9); handler
functions are identified by numeric ids, mirroring JavaScript function
identity as used by `indexOf`. -/
abbrev Channels := List (String × List Nat)

/-- `Events.subscribe` (`events.ts` lines 17-24): create the handler list when
the property is absent (an existing empty list is truthy and kept), then push
every given handler in order. -/
def Events.subscribe (ch : Channels) (topic : String) (handlers : List Nat) : Channels :=
  match alookup ch topic with
  | none => aset ch topic handlers
  | some hs => aset ch topic (hs ++ handlers)

/-- `Events.unsubscribe` (`events.ts` lines 34-63): an absent topic reports
false; a null handler removes the whole topic; otherwise the first occurrence
of the handler is spliced out, reporting false when it is not found, and the
topic is deleted when its list becomes empty. -/
def Events.unsubscribe (ch : Channels) (topic : String) (handler : Option Nat) : Channels × Bool :=
  match alookup ch topic with
  | none => (ch, false)
  | some hs =>
    match handler with
    | none => (aremove ch topic, true)
    | some h =>
      if h ∈ hs then
        let hs' := hs.erase h
        if hs' = [] then (aremove ch topic, true) else (aset ch topic hs', true)
      else (ch, false)

/-- `Events.publish` (`events.ts` lines 71-82): null for an absent topic
(only an absent property is falsy), otherwise every stored handler is applied
to the same argument list in order and the return values are collected in
order.  `hfun h args` is the value returned by the handler with id `h` on
`args`. -/
def Events.publish (ch : Channels) (topic : String) (hfun : Nat → List JSVal → JSVal) (args : List JSVal) : Option (List JSVal) :=
  match alookup ch topic with
  | none => none
  | some hs => some (hs.map fun h => hfun h args)

/-- The XSSI-prefix strip of `xhr_backend.ts` line 78: the regular expression
XSSI_PREFIX matches the four characters `)]}` and apostrophe, an optional
comma, and a newline, anchored at the start of the body. -/
def stripXssi (s : String) : String :=
  if s.startsWith ")]\x7d\x27,\n" then s.drop 6
  else if s.startsWith ")]\x7d\x27\n" then s.drop 5
  else s

/-- Status and body normalization of the load handler (`xhr_backend.ts` lines
63-87): 1223 becomes 204; a 204 keeps the initial null body; otherwise the
body is the response value, or the response text when the response value is
undefined, with the XSSI prefix stripped from string bodies; a remaining
status 0 becomes 200 exactly when the body is truthy, else stays 0. -/
def normalizeLoad (xhrStatus : Nat) (resp : Option JSVal) (text : String) : Nat × JSVal :=
  let status := if xhrStatus = 1223 then 204 else xhrStatus
  let body : JSVal :=
    if status = 204 then .null
    else
      match (match resp with | none => JSVal.str text | some v => v) with
      | .str s => .str (stripXssi s)
      | v => v
  let status2 := if status = 0 then (if jsTruthy body then 200 else 0) else status
  (status2, body)

/-- Observable steps taken by the completion handlers: lifecycle publications,
observer notifications, and the final re-raise of a captured exception. -/
inductive LEvt : Type where
  | preRequest
  | postRequestSuccess
  | postRequestError
  | postRequest
  | observerNext
  | observerComplete
  | observerError
  | raised
deriving DecidableEq

/-- The load handler of `XHRConnection` (`xhr_backend.ts` lines 63-124) as the
sequence of steps it performs.  `isSuccess` is the status classifier imported
from utils, kept abstract here; `errExn` is the exception the response
observer raises from its error callback, when it raises one.  On a success
classification the two lifecycle events fire, then the observer is notified
and completed; otherwise the observer error is delivered inside a try block,
any exception it raises is captured, the two lifecycle events fire, and the
captured exception is re-raised at the very end. -/
def onLoadRun (isSuccess : Nat → Bool) (xhrStatus : Nat) (resp : Option JSVal) (text : String) (errExn : Option String) : List LEvt × Option String :=
  if isSuccess (normalizeLoad xhrStatus resp text).1 then
    ([.postRequestSuccess, .postRequest, .observerNext, .observerComplete], none)
  else
    ([.observerError, .postRequestError, .postRequest] ++
       (match errExn with | some _ => [.raised] | none => []), errExn)

/-- The error handler of `XHRConnection` (`xhr_backend.ts` lines 126-152):
same structure as the error branch of the load handler. -/
def onErrorRun (errExn : Option String) : List LEvt × Option String :=
  ([.observerError, .postRequestError, .postRequest] ++
     (match errExn with | some _ => [.raised] | none => []), errExn)

/-- Modelled from the spec: the status classifier `isSuccess` lives in
`providers/backend/utils.ts`, a file missing from the sources here; the spec
describes it as a simple success-range predicate, conventionally the 2xx
range. -/
def isSuccessStatus (status : Nat) : Bool := decide (200 ≤ status ∧ status < 300)

/-- A plugin: an identity and, per lifecycle method name, the optional hook it
implements (the `method in plugin` test of `Http.runEvent`). -/
structure Plugin where
  id : Nat
  hooks : String → Option (JSVal → JSVal)

/-- Modelled from the spec: the stop flag set by `HttpEvents.stop` and
honoured by the plugin iteration lives in files (`utils.ts`, `plugins.ts`)
missing from the sources here; per the spec it skips the remaining plugin
invocations of the event currently being dispatched and is consumed and reset
when the dispatch loop observes it, so every dispatch starts with a clear
flag.  The literal-false test and the skip of plugins lacking the method are
`Http.runEvent` (lines 166-181).  The result lists the ids of the plugins
whose hook for `method` ran, in invocation order. -/
def runDispatch : List Plugin → String → JSVal → List Nat
  | [], _, _ => []
  | p :: rest, method, payload =>
    match p.hooks method with
    | none => runDispatch rest method payload
    | some f =>
      if isLiteralFalse (f payload) then [p.id]
      else p.id :: runDispatch rest method payload

/-- One dispatch per lifecycle event, in order; the stop flag does not carry
across events. -/
def runEventsSeq (plugins : List Plugin) (methods : List String) (payload : JSVal) : List (String × List Nat) :=
  methods.map fun m => (m, runDispatch plugins m payload)

/-- `ModelCollection` constructor guard (`collection.ts` lines 7-11): the
model is rejected exactly when it simultaneously has a non-object typeof and
is strictly null. -/
def ModelCollection.create (model : JSVal) (path : Option String) : Except String (JSVal × Option String) :=
  if jsTypeof model != "object" && isNullVal model then
    Except.error "Data type model invalid"
  else Except.ok (model, path)

/-- `ModelCollection.transform` (`collection.ts` lines 13-30): `ctor` is the
model constructor, `query` the external JSONPath evaluator (which returns the
list of matches, empty when nothing matches), and `body` the parsed response
body (`data.json()`).  Without a path the parsed body itself must be an
array. -/
def ModelCollection.transform (ctor : JSVal → JSVal) (path : Option String) (query : JSVal → String → List JSVal) (body : JSVal) : Except String JSVal :=
  let result : JSVal :=
    match path with
    | some p => .arr (query body p)
    | none => body
  match result with
  | .arr xs => Except.ok (.arr (xs.map ctor))
  | _ => Except.error "Returns should be Array"

/-- Modelled from the spec: `ModelSimple` (file `mapper/model/simple.ts`,
missing from the sources here) constructs exactly one instance from the
extracted value, taking the first extracted value when a path query is
used. -/
def ModelSimple.transform (ctor : JSVal → JSVal) (path : Option String) (query : JSVal → String → List JSVal) (body : JSVal) : Except String JSVal :=
  match path with
  | none => Except.ok (ctor body)
  | some p => Except.ok (ctor ((query body p).headD JSVal.undef))

/-- The two model classes registered by the `ModelMultiple` constructor. -/
inductive TypeTag : Type where
  | simple
  | collection
deriving DecidableEq

/-- One field rule of a mapper specification (`MapperOptions` of
`part_000`). -/
structure MapperOptions where
  type : String
  model : JSVal → JSVal
  path : Option String

/-- The type registry as the `ModelMultiple` constructor leaves it: `simple`
and `collection` (`part_000` lines 7-10 and 16-24). -/
def defaultTypes : List (String × TypeTag) :=
  [("simple", TypeTag.simple), ("collection", TypeTag.collection)]

/-- `ModelMultiple` state: the specification (in key order) and the
registered types. -/
structure ModelMultiple where
  mapper : List (String × MapperOptions)
  types : List (String × TypeTag)

/-- The `ModelMultiple` constructor (`part_000` lines 16-19): it registers the
two default types and performs no validation of the specification, so it
never raises. -/
def ModelMultiple.create (mapper : List (String × MapperOptions)) : Except String ModelMultiple :=
  Except.ok { mapper := mapper, types := defaultTypes }

/-- The `Mapper.create` dispatch of `ModelMultiple.transform`: instantiate the
registered model class for the rule and run its transform. -/
def dispatchTransform (tag : TypeTag) (model : JSVal → JSVal) (path : Option String) (query : JSVal → String → List JSVal) (data : JSVal) : Except String JSVal :=
  match tag with
  | .simple => ModelSimple.transform model path query data
  | .collection => ModelCollection.transform model path query data

/-- The loop of `ModelMultiple.transform` (`part_000` lines 26-44): keys in
specification order; an unregistered type raises `Type ... not exits`, and
any raise aborts the whole call. -/
def transformEntries (types : List (String × TypeTag)) (query : JSVal → String → List JSVal) (data : JSVal) : List (String × MapperOptions) → Except String (List (String × JSVal))
  | [] => Except.ok []
  | (key, opts) :: rest =>
    match alookup types opts.type with
    | none => Except.error ("Type " ++ opts.type ++ " not exits")
    | some tag =>
      match dispatchTransform tag opts.model opts.path query data with
      | Except.error e => Except.error e
      | Except.ok v =>
        match transformEntries types query data rest with
        | Except.error e => Except.error e
        | Except.ok vs => Except.ok ((key, v) :: vs)

/-- `ModelMultiple.transform` (`part_000` lines 26-44). -/
def ModelMultiple.transform (m : ModelMultiple) (query : JSVal → String → List JSVal) (data : JSVal) : Except String (List (String × JSVal)) :=
  transformEntries m.types query data m.mapper

/-- The mapper tail of `Http.request` (`part` appended to `collection.ts`,
lines 76-83): when a mapper is supplied, the observable produced by `map` is
built and then discarded — the function returns the untouched transport
observable.  An observable is embedded as the list of values it emits; `map`
on an observable builds a new one and leaves the source unchanged. -/
def Http.request {α β : Type} (responseObservable : List α) (mapper : Option (α → β)) : List α :=
  match mapper with
  | some m =>
    let _mapped := responseObservable.map m
    responseObservable
  | none => responseObservable

/-- Looking up a key right after assigning it yields the assigned value. -/
theorem alookup_aset {β : Type} (ch : List (String × β)) (t : String) (v : β) :
    alookup (aset ch t v) t = some v := by
  induction ch with
  | nil => simp [aset, alookup]
  | cons e rest ih =>
    obtain ⟨k, w⟩ := e
    by_cases hk : k = t
    · simp [aset, hk, alookup]
    · simp [aset, hk, alookup, ih]

/-- Looking up a key right after deleting it yields nothing. -/
theorem alookup_aremove {β : Type} (ch : List (String × β)) (t : String) :
    alookup (aremove ch t) t = none := by
  induction ch with
  | nil => rfl
  | cons e rest ih =>
    obtain ⟨k, w⟩ := e
    by_cases hk : k = t
    · simp [aremove, hk, ih]
    · simp [aremove, hk, alookup, ih]

/-- C1: every completion of the transport — load or error event — publishes
POST_REQUEST exactly once, and after the outcome-specific event:
POST_REQUEST_SUCCESS on a success-classified status, POST_REQUEST_ERROR on a
non-success status or a transport error. -/
theorem c1_postRequest_once_after_outcome (isSuccess : Nat → Bool) (xhrStatus : Nat) (resp : Option JSVal) (text : String) (errExn : Option String) :
    (∃ pre post, (onLoadRun isSuccess xhrStatus resp text errExn).1 = pre ++ LEvt.postRequest :: post
        ∧ LEvt.postRequest ∉ pre ∧ LEvt.postRequest ∉ post
        ∧ (if isSuccess (normalizeLoad xhrStatus resp text).1 then LEvt.postRequestSuccess else LEvt.postRequestError) ∈ pre)
    ∧ (∃ pre post, (onErrorRun errExn).1 = pre ++ LEvt.postRequest :: post
        ∧ LEvt.postRequest ∉ pre ∧ LEvt.postRequest ∉ post
        ∧ LEvt.postRequestError ∈ pre) := by
  constructor
  · by_cases h : isSuccess (normalizeLoad xhrStatus resp text).1
    · exact ⟨[LEvt.postRequestSuccess], [LEvt.observerNext, LEvt.observerComplete],
        by simp [onLoadRun, h], by decide, by decide, by simp [h]⟩
    · cases errExn with
      | none => exact ⟨[LEvt.observerError, LEvt.postRequestError], [],
          by simp [onLoadRun, h], by decide, by decide, by simp [h]⟩
      | some e => exact ⟨[LEvt.observerError, LEvt.postRequestError], [LEvt.raised],
          by simp [onLoadRun, h], by decide, by decide, by simp [h]⟩
  · cases errExn with
    | none => exact ⟨[LEvt.observerError, LEvt.postRequestError], [],
        by simp [onErrorRun], by decide, by decide, by decide⟩
    | some e => exact ⟨[LEvt.observerError, LEvt.postRequestError], [LEvt.raised],
        by simp [onErrorRun], by decide, by decide, by decide⟩

/-- C2: in the error branch an exception raised by the observer error
callback is captured and re-raised only after POST_REQUEST_ERROR and
POST_REQUEST have been published; the two events are published even though
the callback raised. -/
theorem c2_error_branch_reraise_after_events (isSuccess : Nat → Bool) (xhrStatus : Nat) (resp : Option JSVal) (text : String) (e : String) :
    (isSuccess (normalizeLoad xhrStatus resp text).1 = false →
      onLoadRun isSuccess xhrStatus resp text (some e)
        = ([LEvt.observerError, LEvt.postRequestError, LEvt.postRequest, LEvt.raised], some e))
    ∧ onErrorRun (some e)
        = ([LEvt.observerError, LEvt.postRequestError, LEvt.postRequest, LEvt.raised], some e) := by
  constructor
  · intro h
    simp [onLoadRun, h]
  · rfl

/-- C2 witness: a 404 load whose observer error callback raises. -/
theorem c2_witness :
    isSuccessStatus (normalizeLoad 404 none "body").1 = false
    ∧ onLoadRun isSuccessStatus 404 none "body" (some "boom")
        = ([LEvt.observerError, LEvt.postRequestError, LEvt.postRequest, LEvt.raised], some "boom") :=
  ⟨by decide, (c2_error_branch_reraise_after_events isSuccessStatus 404 none "body" "boom").1 (by decide)⟩

/-- C3: during one event dispatch, a hook returning the literal boolean false
stops the remaining plugins of that dispatch; a hook returning any other
value, or a plugin lacking the method, lets dispatch continue to the next
plugin; later events are dispatched in full irrespective of earlier stops. -/
theorem c3_literal_false_stops_current_event (ps qs : List Plugin) (p : Plugin) (f : JSVal → JSVal) (method : String) (payload : JSVal) (plugins : List Plugin) (methods : List String) :
    (p.hooks method = some f → isLiteralFalse (f payload) = true →
        runDispatch (ps ++ p :: qs) method payload = runDispatch (ps ++ [p]) method payload)
    ∧ (p.hooks method = some f → isLiteralFalse (f payload) = false →
        runDispatch (p :: qs) method payload = p.id :: runDispatch qs method payload)
    ∧ (p.hooks method = none →
        runDispatch (p :: qs) method payload = runDispatch qs method payload)
    ∧ (∀ m, runEventsSeq plugins (methods ++ [m]) payload
        = runEventsSeq plugins methods payload ++ [(m, runDispatch plugins m payload)]) := by
  refine ⟨?_, ?_, ?_, ?_⟩
  · intro hf hfalse
    induction ps with
    | nil => simp [runDispatch, hf, hfalse]
    | cons a rest ih =>
      simp only [List.cons_append, runDispatch]
      cases ha : a.hooks method with
      | none => exact ih
      | some g =>
        by_cases hg : isLiteralFalse (g payload)
        · simp [hg]
        · simp [hg, ih]
  · intro hf hfalse
    simp [runDispatch, hf, hfalse]
  · intro hf
    simp [runDispatch, hf]
  · intro m
    simp [runEventsSeq]

/-- C3 witness: two plugins, the first hook returns the literal false, so the
second is skipped. -/
theorem c3_witness :
    runDispatch ([] ++ (⟨1, fun _ => some fun _ => JSVal.bool false⟩ : Plugin) ::
        [(⟨2, fun _ => some fun _ => JSVal.null⟩ : Plugin)]) "postRequest" JSVal.null
      = runDispatch ([] ++ [(⟨1, fun _ => some fun _ => JSVal.bool false⟩ : Plugin)]) "postRequest" JSVal.null :=
  (c3_literal_false_stops_current_event [] [⟨2, fun _ => some fun _ => JSVal.null⟩]
      ⟨1, fun _ => some fun _ => JSVal.bool false⟩ (fun _ => JSVal.bool false)
      "postRequest" JSVal.null [] []).1 rfl rfl

/-- C4: the collection transform demands an array extraction, raising the
data-shape error otherwise; it builds one instance per element in the original
order, and a path that matches nothing yields the empty collection without
error. -/
theorem c4_collection_requires_array (ctor : JSVal → JSVal) (query : JSVal → String → List JSVal) (body : JSVal) (p : String) :
    (∀ xs, body = JSVal.arr xs →
        ModelCollection.transform ctor none query body = Except.ok (JSVal.arr (xs.map ctor)))
    ∧ ((∀ xs, body ≠ JSVal.arr xs) →
        ModelCollection.transform ctor none query body = Except.error "Returns should be Array")
    ∧ ModelCollection.transform ctor (some p) query body = Except.ok (JSVal.arr ((query body p).map ctor))
    ∧ (query body p = [] →
        ModelCollection.transform ctor (some p) query body = Except.ok (JSVal.arr [])) := by
  refine ⟨?_, ?_, rfl, ?_⟩
  · rintro xs rfl
    rfl
  · intro h
    cases body <;> first | rfl | exact absurd rfl (h _)
  · intro h
    simp [ModelCollection.transform, h]

/-- C4 witness: a path matching nothing yields the empty collection. -/
theorem c4_witness :
    (fun (_ : JSVal) (_ : String) => ([] : List JSVal)) (JSVal.obj []) "$.missing" = ([] : List JSVal)
    ∧ ModelCollection.transform (fun v => v) (some "$.missing") (fun _ _ => []) (JSVal.obj [])
        = Except.ok (JSVal.arr []) :=
  ⟨rfl, (c4_collection_requires_array (fun v => v) (fun _ _ => []) (JSVal.obj []) "$.missing").2.2.2 rfl⟩

/-- A specification entry with an unregistered type prevents the whole
transform call from succeeding. -/
theorem transformEntries_unregistered_not_ok (types : List (String × TypeTag)) (query : JSVal → String → List JSVal) (data : JSVal) (k : String) (opts : MapperOptions) (hlook : alookup types opts.type = none) :
    ∀ entries, (k, opts) ∈ entries →
      ∀ r, transformEntries types query data entries ≠ Except.ok r := by
  intro entries
  induction entries with
  | nil => intro h; cases h
  | cons e rest ih =>
    obtain ⟨key, o⟩ := e
    intro hmem r hok
    rcases List.mem_cons.mp hmem with heq | hmemr
    · injection heq with h1 h2
      subst h2
      simp [transformEntries, hlook] at hok
    · revert hok
      simp only [transformEntries]
      cases h1 : alookup types o.type with
      | none => simp
      | some tag =>
        simp only
        cases h2 : dispatchTransform tag o.model o.path query data with
        | error e => simp
        | ok v =>
          simp only
          cases h3 : transformEntries types query data rest with
          | error e => simp
          | ok vs => exact fun _ => ih hmemr vs h3

/-- C5 counterexample: a specification naming the unregistered type `bogus`
is accepted by the mapper constructor and rejected only when transform runs —
the configuration error does not surface at construction time. -/
theorem c5_counterexample :
    ModelMultiple.create [("out", ⟨"bogus", fun v => v, none⟩)]
        = Except.ok { mapper := [("out", ⟨"bogus", fun v => v, none⟩)], types := defaultTypes }
    ∧ ModelMultiple.transform { mapper := [("out", ⟨"bogus", fun v => v, none⟩)], types := defaultTypes }
          (fun _ _ => []) JSVal.null
        = Except.error "Type bogus not exits" :=
  ⟨rfl, rfl⟩

/-- C5 (amended): construction of the mapper performs no validation and
always succeeds; a specification entry whose type name is not registered
makes the transform call fail — the configuration error surfaces at
transform (query) time, not at mapper-construction time. -/
theorem c5_unregistered_type_rejected_at_transform (mapper : List (String × MapperOptions)) (k : String) (opts : MapperOptions) (query : JSVal → String → List JSVal) (data : JSVal) :
    ModelMultiple.create mapper = Except.ok { mapper := mapper, types := defaultTypes }
    ∧ ((k, opts) ∈ mapper → alookup defaultTypes opts.type = none →
        ∀ r, ModelMultiple.transform { mapper := mapper, types := defaultTypes } query data
          ≠ Except.ok r) := by
  refine ⟨rfl, ?_⟩
  intro hmem hlook r
  exact transformEntries_unregistered_not_ok defaultTypes query data k opts hlook mapper hmem r

/-- C5 witness: the amended statement at the bogus specification. -/
theorem c5_witness :
    ModelMultiple.create [("out", ⟨"bogus", fun v => v, none⟩)]
        = Except.ok { mapper := [("out", ⟨"bogus", fun v => v, none⟩)], types := defaultTypes }
    ∧ ModelMultiple.transform { mapper := [("out", ⟨"bogus", fun v => v, none⟩)], types := defaultTypes }
          (fun _ _ => []) JSVal.null
        ≠ Except.ok [] :=
  ⟨(c5_unregistered_type_rejected_at_transform [("out", ⟨"bogus", fun v => v, none⟩)]
      "out" ⟨"bogus", fun v => v, none⟩ (fun _ _ => []) JSVal.null).1,
   (c5_unregistered_type_rejected_at_transform [("out", ⟨"bogus", fun v => v, none⟩)]
      "out" ⟨"bogus", fun v => v, none⟩ (fun _ _ => []) JSVal.null).2
     (List.mem_singleton.mpr rfl) rfl []⟩

/-- C6: on load, status 1223 is normalized exactly like 204; a 204 yields a
null body and keeps status 204; a raw status 0 becomes 200 exactly when the
normalized body is truthy (non-empty), and stays 0 when it is not. -/
theorem c6_status_normalization (resp : Option JSVal) (text : String) :
    normalizeLoad 1223 resp text = normalizeLoad 204 resp text
    ∧ normalizeLoad 204 resp text = (204, JSVal.null)
    ∧ (normalizeLoad 0 resp text).1
        = (if jsTruthy (normalizeLoad 0 resp text).2 then 200 else 0) :=
  ⟨rfl, rfl, rfl⟩

/-- C7 counterexample: subscribing zero handlers creates a topic with no
handlers, and publish to it returns the empty list of results, not null. -/
theorem c7_counterexample :
    alookup (Events.subscribe [] "t" []) "t" = some []
    ∧ Events.publish (Events.subscribe [] "t" []) "t" (fun _ _ => JSVal.null) [] = some []
    ∧ Events.publish (Events.subscribe [] "t" []) "t" (fun _ _ => JSVal.null) [] ≠ none :=
  ⟨rfl, rfl, fun h => Option.noConfusion h⟩

/-- C7 (amended): publish returns null exactly when the topic has no channel
entry; when an entry exists — even the empty one a zero-handler subscribe
creates — every stored handler is applied to the same argument list in
subscription order and the result collects the return values in that order;
handlers subscribed to a fresh topic are stored, and hence invoked, in the
order given. -/
theorem c7_publish_order_and_null (ch : Channels) (topic : String) (hfun : Nat → List JSVal → JSVal) (args : List JSVal) (hs : List Nat) :
    (Events.publish ch topic hfun args = none ↔ alookup ch topic = none)
    ∧ (∀ l, alookup ch topic = some l →
        Events.publish ch topic hfun args = some (l.map fun h => hfun h args))
    ∧ (alookup ch topic = none →
        Events.publish (Events.subscribe ch topic hs) topic hfun args
          = some (hs.map fun h => hfun h args)) := by
  refine ⟨?_, ?_, ?_⟩
  · cases hl : alookup ch topic with
    | none => simp [Events.publish, hl]
    | some l => simp [Events.publish, hl]
  · intro l hl
    simp [Events.publish, hl]
  · intro hl
    simp [Events.subscribe, hl, Events.publish, alookup_aset]

/-- C7 witness: two handlers on a fresh topic are invoked in order and their
results collected in order. -/
theorem c7_witness :
    alookup ([] : Channels) "t" = none
    ∧ Events.publish (Events.subscribe [] "t" [1, 2]) "t" (fun h _ => JSVal.num (Int.ofNat h)) []
        = some [JSVal.num 1, JSVal.num 2] :=
  ⟨rfl, (c7_publish_order_and_null [] "t" (fun h _ => JSVal.num (Int.ofNat h)) [] [1, 2]).2.2 rfl⟩

/-- C8: removing the only handler of a topic by passing that handler deletes
the topic entirely and reports true, after which publish to the topic returns
null; an unknown topic, or a handler that is not subscribed, reports false
and leaves the store unchanged. -/
theorem c8_unsubscribe_only_handler (ch : Channels) (topic : String) (h : Nat) (hfun : Nat → List JSVal → JSVal) (args : List JSVal) :
    (alookup ch topic = some [h] →
        (Events.unsubscribe ch topic (some h)).2 = true
        ∧ alookup (Events.unsubscribe ch topic (some h)).1 topic = none
        ∧ Events.publish (Events.unsubscribe ch topic (some h)).1 topic hfun args = none)
    ∧ (alookup ch topic = none → Events.unsubscribe ch topic (some h) = (ch, false))
    ∧ (∀ l, alookup ch topic = some l → h ∉ l →
        Events.unsubscribe ch topic (some h) = (ch, false)) := by
  refine ⟨?_, ?_, ?_⟩
  · intro hl
    have hu : Events.unsubscribe ch topic (some h) = (aremove ch topic, true) := by
      simp [Events.unsubscribe, hl]
    rw [hu]
    exact ⟨rfl, alookup_aremove ch topic, by simp [Events.publish, alookup_aremove]⟩
  · intro hl
    simp [Events.unsubscribe, hl]
  · intro l hl hnot
    simp [Events.unsubscribe, hl, hnot]

/-- C8 witness: removing the single handler of a one-handler topic. -/
theorem c8_witness :
    alookup ([("t", [5])] : Channels) "t" = some [5]
    ∧ (Events.unsubscribe [("t", [5])] "t" (some 5)).2 = true
    ∧ Events.publish (Events.unsubscribe [("t", [5])] "t" (some 5)).1 "t" (fun _ _ => JSVal.null) [] = none :=
  ⟨rfl, ((c8_unsubscribe_only_handler [("t", [5])] "t" 5 (fun _ _ => JSVal.null) []).1 rfl).1,
        ((c8_unsubscribe_only_handler [("t", [5])] "t" 5 (fun _ _ => JSVal.null) []).1 rfl).2.2⟩

/-- C9: when a mapper instance is supplied, the observable returned by
request is the original transport observable — the mapped observable is
discarded, so subscribers get the raw responses; supplying the mapper makes
no difference to the returned observable. -/
theorem c9_mapper_result_discarded {α β : Type} (obs : List α) (m : α → β) :
    Http.request obs (some m) = obs
    ∧ Http.request obs (some m) = Http.request obs (none : Option (α → β)) :=
  ⟨rfl, rfl⟩

/-- C10: the collection-model constructor guard — non-object typeof AND
strictly null — is unsatisfiable, so construction accepts every model value
and the invalid-model error branch is unreachable. -/
theorem c10_ctor_guard_unreachable (model : JSVal) (path : Option String) :
    (jsTypeof model != "object" && isNullVal model) = false
    ∧ ModelCollection.create model path = Except.ok (model, path) := by
  cases model <;> exact ⟨rfl, rfl⟩
